import Mathlib

/-
Verification development for the kdbus message-dispatch core.

The definitions below are shallow embeddings of the C functions in
src/bus.c, src/connection.c and src/endpoint.c.  Machine integers are
modelled as Nat/Int; kernel list_head lists as Lean lists; atomics as plain
state fields (the theorems are about the sequential semantics of each
operation); ERR_PTR-style fallible functions as Except values.  Each
definition's doc comment names the C function it embeds.
-/

namespace Kdbus

/-- Kernel error codes used by the embedded functions (negative errno values
in C, carried symbolically here). -/
inductive KErr where
  | EINVAL | EPERM | EEXIST | ENOENT | ESRCH | ENXIO | EADDRNOTAVAIL
  | ECONNRESET | EPIPE | ENOBUFS | EMLINK | EBUSY | EALREADY
  | ECANCELED | ETIMEDOUT | ECOMM | ESHUTDOWN | EREMCHG | EAGAIN
  | ENOMEM | EMFILE | EINTR
  deriving DecidableEq, Repr

/- ------------------------------------------------------------------ -/
/- Bus-name prefix check (src/bus.c, kdbus_bus_new, lines 287-291)    -/
/- ------------------------------------------------------------------ -/

/-- C strncmp equality: `strncmpZero a b n = true` iff `strncmp(a, b, n) == 0`,
with strings modelled as NUL-free char lists (the end of the list is the
terminating NUL). -/
def strncmpZero : List Char → List Char → Nat → Bool
  | _, _, 0 => true
  | [], [], _ + 1 => true
  | [], _ :: _, _ + 1 => false
  | _ :: _, [], _ + 1 => false
  | a :: as, b :: bs, n + 1 => if a = b then strncmpZero as bs n else false

/-- The prefix string built by `snprintf(prefix, sizeof(prefix), "%u-", uid)`
in kdbus_bus_new: the decimal digits of the creator uid followed by a dash.
(uid is a u32, so at most 10 digits + dash + NUL = 12 bytes fit the 16-byte
buffer; no truncation occurs.) -/
def uidDashPfx (uid : Nat) : List Char := (toString uid).data ++ ['-']

/-- Embeds the literal name check of kdbus_bus_new (src/bus.c:290):
`strncmp(name, prefix, strlen(prefix) != 0)`.  The third argument is the C
boolean value of `strlen(prefix) != 0`, i.e. 1 (the prefix is never empty),
not the prefix length. -/
def kdbus_bus_new_name_ok (uid : Nat) (name : List Char) : Bool :=
  strncmpZero name (uidDashPfx uid)
    (if (uidDashPfx uid).length ≠ 0 then 1 else 0)

/-- The name admission of kdbus_bus_new as the code performs it: -EINVAL when
the (literal, one-byte) strncmp check fails, otherwise the name is accepted. -/
def kdbus_bus_new_check_name (uid : Nat) (name : List Char) : Except KErr Unit :=
  if kdbus_bus_new_name_ok uid name then .ok () else .error .EINVAL

/-- The check the claim (and the comment `enforce "$UID-" prefix` above the
code) intends: the name begins with the full decimal-uid-dash prefix. -/
def specUidDashCheck (uid : Nat) (name : List Char) : Bool :=
  (uidDashPfx uid).isPrefixOf name

/- ------------------------------------------------------------------ -/
/- Default-endpoint error handling (src/bus.c, kdbus_bus_new, 352-356) -/
/- ------------------------------------------------------------------ -/

/-- The C truth value of `IS_ERR(ptr)` as an int: 1 for an ERR_PTR, 0
otherwise.  ERR_PTR results are modelled as `Except Int`, the error carrying
the negative errno encoded in the pointer. -/
def c_IS_ERR {α : Type} (p : Except Int α) : Int :=
  match p with
  | .error _ => 1
  | .ok _ => 0

/-- Embeds the literal guard at src/bus.c:353: `if (IS_ERR(b->ep) < 0)`.
IS_ERR yields 0 or 1, so the comparison with 0 is what the code actually
branches on. -/
def kdbus_bus_new_ep_guard {α : Type} (ep : Except Int α) : Bool :=
  c_IS_ERR ep < 0

/-- What kdbus_bus_new does after `b->ep = kdbus_ep_new(...)` (src/bus.c
352-356): when the guard fires it propagates PTR_ERR(b->ep); otherwise it
carries on and (eventually) returns the bus object, whose ep field holds
whatever kdbus_ep_new returned.  The returned Bool records whether the bus
object's ep field is an error pointer. -/
def kdbus_bus_new_after_ep (ep : Except Int Unit) : Except Int Bool :=
  if kdbus_bus_new_ep_guard ep then
    .error (match ep with | .error e => e | .ok _ => 0)
  else
    .ok (match ep with | .error _ => true | .ok _ => false)

/- ------------------------------------------------------------------ -/
/- Disconnect (src/connection.c, kdbus_conn_disconnect, 954-1044)     -/
/- ------------------------------------------------------------------ -/

/-- The state of one connection as seen by kdbus_conn_disconnect: whether the
connection is still active (kdbus_conn_active: the biased atomic counter is
non-negative) and its receive queue (conn->queue.msg_list), each entry
abstracted to an opaque tag. -/
structure ConnDisc where
  active : Bool
  queue : List Nat
  deriving DecidableEq, Repr

/-- Embeds kdbus_conn_disconnect (src/connection.c:954).  Returns the
post-state together with the error, if any: an inactive connection yields
-EALREADY and a non-empty queue with @ensure_queue_empty yields -EBUSY, both
leaving the connection untouched; otherwise the connection goes inactive, its
queue is drained (entries freed, reply-dead notifications emitted) and the
call succeeds. -/
def kdbus_conn_disconnect (c : ConnDisc) (ensureQueueEmpty : Bool) :
    ConnDisc × Option KErr :=
  if ¬ c.active then
    (c, some .EALREADY)
  else if ensureQueueEmpty ∧ ¬ c.queue.isEmpty then
    (c, some .EBUSY)
  else
    ({ active := false, queue := [] }, none)

/-- Draining the receive queue by MSG_RECV calls, as far as disconnect is
concerned: the queue becomes empty while the connection stays active. -/
def drainQueue (c : ConnDisc) : ConnDisc :=
  { c with queue := [] }

/- ------------------------------------------------------------------ -/
/- Receive (src/connection.c, kdbus_cmd_msg_recv, 280-369)            -/
/- ------------------------------------------------------------------ -/

/-- One entry of a connection's receive queue as kdbus_cmd_msg_recv uses it:
the pool offset of its slice (kdbus_pool_slice_offset(entry->slice)) and its
priority.  Reply back-pointers are irrelevant to claim C8 (PEEK and the
offset check) and are omitted. -/
structure RecvEntry where
  slOffset : Nat
  priority : Int
  deriving DecidableEq, Repr

/-- Modelled from the spec: `kdbus_queue_entry_peek` is defined in queue.c,
which is not part of this tree.  Spec section 4.3: with use_priority, peek
returns the highest-priority entry whose priority is at most the caller's
bound; otherwise the FIFO head.  The queue list is kept ordered by priority
with FIFO tie-breaking, so in both cases the head is the candidate.  An empty
queue (or a head outside the bound) yields -EAGAIN. -/
def kdbus_queue_entry_peek (queue : List RecvEntry) (priority : Int)
    (usePriority : Bool) : Except KErr RecvEntry :=
  match queue with
  | [] => .error .EAGAIN
  | e :: _ =>
    if usePriority ∧ priority < e.priority then .error .EAGAIN else .ok e

/-- The flags of a KDBUS_CMD_MSG_RECV invocation together with the input
offset field of struct kdbus_cmd_recv. -/
structure RecvCmd where
  offset : Nat
  drop : Bool
  peek : Bool
  usePriority : Bool
  priority : Int
  deriving DecidableEq, Repr

/-- What a successful kdbus_cmd_msg_recv reports and does: the pool offset
written back to recv->offset (none in DROP mode, which never reaches the
write-back), whether file descriptors were installed
(kdbus_queue_entry_install ran) and the entry the call consumed, if any. -/
structure RecvOut where
  offsetOut : Option Nat
  installedFds : Bool
  consumed : Option RecvEntry
  deriving DecidableEq, Repr

/-- Embeds kdbus_cmd_msg_recv (src/connection.c:280).  A positive input
offset is rejected with -EINVAL before the queue is even looked at; then the
next entry is peeked; DROP unlinks and frees it; PEEK writes the slice offset
back, flushes the slice cache and leaves the entry queued without installing
file descriptors; the default mode installs fds, publishes the slice and
unlinks the entry.  Errors leave the queue untouched (first component). -/
def kdbus_cmd_msg_recv (queue : List RecvEntry) (cmd : RecvCmd) :
    List RecvEntry × Except KErr RecvOut :=
  if 0 < cmd.offset then
    (queue, .error .EINVAL)
  else
    match kdbus_queue_entry_peek queue cmd.priority cmd.usePriority with
    | .error e => (queue, .error e)
    | .ok entry =>
      if cmd.drop then
        (queue.erase entry, .ok ⟨none, false, some entry⟩)
      else if cmd.peek then
        (queue, .ok ⟨some entry.slOffset, false, none⟩)
      else
        (queue.erase entry, .ok ⟨some entry.slOffset, true, some entry⟩)

/- ------------------------------------------------------------------ -/
/- Unicast destination resolution                                     -/
/- (src/connection.c, kdbus_conn_kmsg_send, 773-817)                  -/
/- ------------------------------------------------------------------ -/

/-- A name-registry entry as kdbus_conn_kmsg_send reads it after
kdbus_name_lock: the owning (implementor) connection id, if any, the
activator connection id, if any, and the registry-assigned name id. -/
structure NameEntry where
  conn : Option Nat
  activator : Option Nat
  nameId : Nat
  deriving DecidableEq, Repr

/-- KDBUS_DST_ID_NAME from the wire-protocol header (not in this tree):
the dst_id value meaning "address purely by name". -/
def KDBUS_DST_ID_NAME : Nat := 0

/-- Outcome of resolving a unicast destination given by name (plus possibly
an id): either a destination connection id, an error, or a dereference of the
NULL owner pointer (`name_entry->conn->id` with name_entry->conn == NULL),
which in the kernel is a crash, not a defined result. -/
inductive ResolveOut where
  | dest (connId : Nat)
  | err (e : KErr)
  | nullDeref
  deriving DecidableEq, Repr

/-- The tail of the dst_name branch of kdbus_conn_kmsg_send (src/connection.c
793-802): choose the activator as conn_dst when there is no implementor,
otherwise the owner, and apply the NO_AUTO_START check.  A name entry with
neither owner nor activator would make the code kdbus_conn_ref(NULL), another
NULL dereference. -/
def resolveAfterIdCheck (ne : NameEntry) (noAutoStart : Bool)
    (isActivatorConn : Nat → Bool) : ResolveOut :=
  match (if ne.conn = none ∧ ne.activator ≠ none then ne.activator
         else ne.conn) with
  | none => .nullDeref
  | some d =>
    if noAutoStart ∧ isActivatorConn d then .err .EADDRNOTAVAIL
    else .dest d

/-- Embeds the dst_name branch of kdbus_conn_kmsg_send (src/connection.c
773-802).  `lookup` is the result of kdbus_name_lock on kmsg->dst_name
(none: -ESRCH).  If dst_id is also given (!= KDBUS_DST_ID_NAME) the code
compares it against `name_entry->conn->id` *before* the null-owner check a
few lines below, so an activator-held name (conn == NULL) dereferences NULL. -/
def resolveNameDst (lookup : Option NameEntry) (dstId : Nat)
    (noAutoStart : Bool) (isActivatorConn : Nat → Bool) : ResolveOut :=
  match lookup with
  | none => .err .ESRCH
  | some ne =>
    if dstId ≠ KDBUS_DST_ID_NAME then
      match ne.conn with
      | none => .nullDeref
      | some ow =>
        if dstId ≠ ow then .err .EREMCHG
        else resolveAfterIdCheck ne noAutoStart isActivatorConn
    else resolveAfterIdCheck ne noAutoStart isActivatorConn

/- ------------------------------------------------------------------ -/
/- Reply trackers: find, access check, cancel                         -/
/- (src/connection.c 371-473, src/endpoint.c 406-477)                 -/
/- ------------------------------------------------------------------ -/

/-- A reply tracker (struct kdbus_conn_reply) as the find/cancel/access paths
read it: the connection awaiting the reply, the cookie of the original call
and the sync flag.  Trackers live on the reply_list of the connection that is
expected to send the reply. -/
structure Reply where
  replyDst : Nat
  cookie : Nat
  sync : Bool
  deriving DecidableEq, Repr

/-- The match predicate of kdbus_conn_find_reply's loop:
`r->reply_dst == conn_reply_dst && r->cookie == cookie`. -/
def replyMatches (dstId cookie : Nat) (r : Reply) : Bool :=
  r.replyDst == dstId && r.cookie == cookie

/-- Embeds kdbus_conn_find_reply (src/connection.c:371): bail out when the
reply-awaiting connection has no outstanding requests
(conn_reply_dst->reply_count == 0), otherwise return the first tracker of
@replyList whose reply_dst and cookie match. -/
def kdbus_conn_find_reply (replyList : List Reply) (dstReplyCount : Nat)
    (dstId cookie : Nat) : Option Reply :=
  if dstReplyCount = 0 then none
  else replyList.find? (replyMatches dstId cookie)

/-- list_del of the first tracker satisfying @p, as performed on the node
that kdbus_conn_find_reply returned. -/
def removeFirst (p : Reply → Bool) : List Reply → List Reply
  | [] => []
  | r :: rs => if p r then rs else r :: removeFirst p rs

/-- The credential fields kdbus_ep_has_default_talk_access reads. -/
structure Cred where
  fsuid : Nat
  uid : Nat
  deriving DecidableEq, Repr

/-- Embeds kdbus_ep_has_default_talk_access (src/endpoint.c:430): the sender
is privileged on the bus, or the sender's fsuid equals the receiver's uid. -/
def kdbus_ep_has_default_talk_access (srcPrivileged : Bool)
    (src dst : Cred) : Bool :=
  srcPrivileged || (src.fsuid == dst.uid)

/-- Embeds kdbus_custom_ep_check_talk_access (src/endpoint.c:406): no custom
policy db means allowed; otherwise the verdict of the external policy engine
(an oracle here), with -EPERM rewritten to -ENOENT so that custom endpoints
do not leak which names exist. -/
def kdbus_custom_ep_check_talk_access (hasPolicy : Bool)
    (customVerdict : Except KErr Unit) : Except KErr Unit :=
  if hasPolicy then
    match customVerdict with
    | .error .EPERM => .error .ENOENT
    | v => v
  else .ok ()

/-- Embeds kdbus_ep_policy_check_talk_access (src/endpoint.c:455): first the
custom endpoint policy, then the implicit default access, then the bus policy
db (again an external oracle). -/
def kdbus_ep_policy_check_talk_access (hasPolicy : Bool)
    (customVerdict : Except KErr Unit) (srcPrivileged : Bool)
    (srcCred dstCred : Cred) (busVerdict : Except KErr Unit) :
    Except KErr Unit :=
  match kdbus_custom_ep_check_talk_access hasPolicy customVerdict with
  | .error e => .error e
  | .ok _ =>
    if kdbus_ep_has_default_talk_access srcPrivileged srcCred dstCred then
      .ok ()
    else busVerdict

/-- Result of a successful kdbus_conn_check_access: conn_src's reply list
after the call, and the consumed sync tracker to wake (*reply_wake), if
any. -/
structure AccessOut where
  srcList : List Reply
  wake : Option Reply
  deriving DecidableEq, Repr

/-- Embeds kdbus_conn_check_access (src/connection.c:433).
@hasReplyWakeSlot is `reply_wake != NULL` (true on the non-EXPECT_REPLY send
path).  When the sent message's cookie_reply is positive, conn_src's reply
list is searched for a tracker pointing at conn_dst with that cookie; a hit
is unlinked (consumed) and authorizes the message, a sync hit is additionally
handed back for waking.  Without a hit the policy DBs decide. -/
def kdbus_conn_check_access (hasReplyWakeSlot : Bool) (cookieReply : Nat)
    (src : List Reply) (dstReplyCount dstId : Nat) (hasPolicy : Bool)
    (customVerdict busVerdict : Except KErr Unit) (srcPrivileged : Bool)
    (srcCred dstCred : Cred) : Except KErr AccessOut :=
  let found :=
    if hasReplyWakeSlot ∧ 0 < cookieReply then
      kdbus_conn_find_reply src dstReplyCount dstId cookieReply
    else none
  match found with
  | some r =>
    .ok ⟨removeFirst (replyMatches dstId cookieReply) src,
         if r.sync then some r else none⟩
  | none =>
    match kdbus_ep_policy_check_talk_access hasPolicy customVerdict
        srcPrivileged srcCred dstCred busVerdict with
    | .error e => .error e
    | .ok _ => .ok ⟨src, none⟩

/-- One step of the hash_for_each loop of kdbus_cmd_msg_cancel
(src/connection.c:416): skip the cancelling connection itself, otherwise look
up the first matching tracker and, if found, wake it synchronously with
-ECANCELED (kdbus_conn_reply_sync: unlink, set err, wake). -/
def cancelConn (connId cookie replyCount : Nat) (c : Nat × List Reply) :
    (Nat × List Reply) × Option (Reply × KErr) :=
  if c.1 = connId then (c, none)
  else
    match kdbus_conn_find_reply c.2 replyCount connId cookie with
    | some r =>
      ((c.1, removeFirst (replyMatches connId cookie) c.2),
       some (r, .ECANCELED))
    | none => (c, none)

/-- Embeds kdbus_cmd_msg_cancel (src/connection.c:403): -ENOENT when the
connection has no outstanding requests at all; otherwise every other
connection on the bus is scanned, matching trackers are woken with
-ECANCELED, and the call succeeds iff at least one was found.  The result
carries the connections' reply lists after the scan and the woken trackers
with their error codes. -/
def kdbus_cmd_msg_cancel (connId cookie connReplyCount : Nat)
    (conns : List (Nat × List Reply)) :
    Except KErr (List (Nat × List Reply) × List (Reply × KErr)) :=
  if connReplyCount = 0 then .error .ENOENT
  else if ((conns.map (cancelConn connId cookie connReplyCount)).filterMap
      (·.2)).isEmpty then
    .error .ENOENT
  else
    .ok ((conns.map (cancelConn connId cookie connReplyCount)).map (·.1),
         (conns.map (cancelConn connId cookie connReplyCount)).filterMap
           (·.2))

/-- The sequence-number state of one domain: the domain's msg_seq_last
counter and the log of (bus id, assigned seq) pairs of the successful sends,
in send order. -/
structure SeqSt where
  domainSeq : Nat
  assigned : List (Nat × Nat)
  deriving DecidableEq, Repr

/-- Embeds the sequence assignment of kdbus_conn_kmsg_send
(src/connection.c:746): `kmsg->seq =
atomic64_inc_return(&bus->domain->msg_seq_last)` — the counter lives on the
bus's *domain*, and the post-increment value is what the message gets. -/
def kmsgAssignSeq (busId : Nat) (st : SeqSt) : SeqSt :=
  { domainSeq := st.domainSeq + 1,
    assigned := st.assigned ++ [(busId, st.domainSeq + 1)] }

/-- A series of sends, each naming the bus it goes out on. -/
def runSends (buses : List Nat) (st : SeqSt) : SeqSt :=
  buses.foldl (fun s b => kmsgAssignSeq b s) st

/-- A fresh domain: counter zero (atomic64_set in kdbus_domain_new), no
sends yet. -/
def initSeqSt : SeqSt := ⟨0, []⟩

/-- The mechanism the claim describes, at its words: `kmsg.seq ←
bus.msg_seq_last.fetch_add(1)` — a per-*bus* counter whose *pre*-increment
value is assigned.  Kept only to compare against the embedding of the code;
struct kdbus_bus has no msg_seq_last field in this tree. -/
structure SpecSeqSt where
  busSeq : Nat → Nat
  assigned : List (Nat × Nat)

/-- One send under the claim's wording. -/
def specAssignSeq (busId : Nat) (st : SpecSeqSt) : SpecSeqSt :=
  { busSeq := fun b => if b = busId then st.busSeq b + 1 else st.busSeq b,
    assigned := st.assigned ++ [(busId, st.busSeq busId)] }

/-- A series of sends under the claim's wording. -/
def specRunSends (buses : List Nat) (st : SpecSeqSt) : SpecSeqSt :=
  buses.foldl (fun s b => specAssignSeq b s) st

/-- A fresh domain under the claim's wording. -/
def initSpecSeqSt : SpecSeqSt := ⟨fun _ => 0, []⟩

/-- The inductive invariant of the send sequence: every logged number is at
most the domain counter, and the log is strictly increasing. -/
def SeqInv (st : SeqSt) : Prop :=
  (∀ q ∈ st.assigned, q.2 ≤ st.domainSeq) ∧
  st.assigned.Pairwise (fun a b => a.2 < b.2)

/- ------------------------------------------------------------------ -/
/- Per-user queue quota                                                -/
/- (src/connection.c, kdbus_conn_queue_user_quota 162-211,             -/
/-  kdbus_conn_entry_insert 476-539)                                   -/
/- ------------------------------------------------------------------ -/

/-- KDBUS_ALIGN8 from the kdbus headers: round up to a multiple of 8. -/
def KDBUS_ALIGN8 (n : Nat) : Nat := (n + 7) / 8 * 8

/-- A queue entry as the quota code sees it: the sending user
(conn_src->user->idr; none for kernel-generated messages) and the user the
entry was charged to (entry->user, written only by the accounting branch of
kdbus_conn_queue_user_quota). -/
structure QEntry where
  srcUser : Option Nat
  user : Option Nat
  deriving DecidableEq, Repr

/-- The queue/quota state of one receiving connection: conn->queue.msg_count,
the conn->msg_users counter array (modelled as a total function; slots the
code never wrote read as zero), conn->msg_users_max and the queued entries
(conn->queue.msg_list) in order. -/
structure ConnQueueState where
  msgCount : Nat
  msgUsers : Nat → Nat
  msgUsersMax : Nat
  entries : List QEntry

/-- The counter-array growth step of kdbus_conn_queue_user_quota (the
krealloc branch, src/connection.c:185-203), reached with the queue at or
above the per-user threshold: when the array does not cover the sending
user's idr it is grown to 8 + KDBUS_ALIGN8(user) slots.  The krealloc tail
is uninitialized in C and modelled here as untouched (reading as zero, one
of its possible contents); the only slot the code itself initializes is the
triggering user's, seeded with the current queue depth, and only on the very
first allocation (msg_users_max == 0). -/
def quotaSeed (user : Nat) (st : ConnQueueState) : ConnQueueState :=
  if st.msgUsersMax ≤ user then
    { st with
      msgUsers :=
        if st.msgUsersMax = 0 then
          fun v => if v = user then st.msgCount else st.msgUsers v
        else st.msgUsers,
      msgUsersMax := 8 + KDBUS_ALIGN8 user }
  else st

/-- Embeds kdbus_conn_queue_user_quota (src/connection.c:162).  @privileged
is ns_capable(&init_user_ns, CAP_IPC_OWNER); @connSrc carries
conn_src->user->idr when conn_src is non-NULL.  Below
KDBUS_CONN_MAX_MSGS_PER_USER queued messages nothing is accounted; above,
the array is grown/seeded (quotaSeed), the sender's counter is checked
against the limit (-ENOBUFS when it already exceeds it) and then debited.
Returns the updated state and the user charged to the entry (entry->user),
if any. -/
def kdbus_conn_queue_user_quota (maxMsgsPerUser : Nat) (privileged : Bool)
    (connSrc : Option Nat) (st : ConnQueueState) :
    Except KErr (ConnQueueState × Option Nat) :=
  match connSrc with
  | none => .ok (st, none)
  | some user =>
    if privileged then .ok (st, none)
    else if st.msgCount < maxMsgsPerUser then .ok (st, none)
    else if maxMsgsPerUser < (quotaSeed user st).msgUsers user then
      .error .ENOBUFS
    else
      .ok ({ quotaSeed user st with
             msgUsers := fun v =>
               if v = user then (quotaSeed user st).msgUsers v + 1
               else (quotaSeed user st).msgUsers v },
           some user)

/-- The sender-side inputs of one kdbus_conn_entry_insert call. -/
structure InsertInput where
  srcUser : Option Nat
  privileged : Bool
  fdsCount : Nat
  active : Bool
  acceptFd : Bool
  deriving DecidableEq, Repr

/-- Embeds kdbus_conn_entry_insert (src/connection.c:476): the aggregate
message limit (skipped for privileged senders), the active check, the
accept-fd check, the per-user quota, and finally kdbus_queue_entry_add,
which links the entry (recording the charged user) and bumps msg_count. -/
def kdbus_conn_entry_insert (maxMsgs maxMsgsPerUser : Nat)
    (inp : InsertInput) (st : ConnQueueState) : Except KErr ConnQueueState :=
  if ¬ inp.privileged ∧ maxMsgs < st.msgCount then .error .ENOBUFS
  else if ¬ inp.active then .error .ECONNRESET
  else if ¬ inp.acceptFd ∧ 0 < inp.fdsCount then .error .ECOMM
  else
    match kdbus_conn_queue_user_quota maxMsgsPerUser inp.privileged
        inp.srcUser st with
    | .error e => .error e
    | .ok (st1, charged) =>
      .ok { st1 with
            msgCount := st1.msgCount + 1,
            entries := st1.entries ++ [⟨inp.srcUser, charged⟩] }

/-- One enqueue attempt as a state transition: a failed insert leaves the
connection's queue state unchanged. -/
def insertStep (maxMsgs maxMsgsPerUser : Nat) (st : ConnQueueState)
    (inp : InsertInput) : ConnQueueState :=
  match kdbus_conn_entry_insert maxMsgs maxMsgsPerUser inp st with
  | .ok st' => st'
  | .error _ => st

/-- A series of enqueue attempts against one receiving connection. -/
def runInserts (maxMsgs maxMsgsPerUser : Nat) (steps : List InsertInput)
    (st : ConnQueueState) : ConnQueueState :=
  steps.foldl (insertStep maxMsgs maxMsgsPerUser) st

/-- A freshly created connection: empty queue, no counter array
(kdbus_conn_new leaves msg_users NULL and msg_users_max 0). -/
def initQueueState : ConnQueueState := ⟨0, fun _ => 0, 0, []⟩

/-- Number of queued entries charged to user @u (entry->user == u). -/
def chargedCount (u : Nat) (st : ConnQueueState) : Nat :=
  st.entries.countP (fun e => e.user == some u)

/-- Number of queued entries sent by user @u. -/
def sentCount (u : Nat) (st : ConnQueueState) : Nat :=
  st.entries.countP (fun e => e.srcUser == some u)

/-- The per-user quota invariant maintained by the enqueue path: while the
counter array is unallocated nothing has ever been charged, each user's
charged entries are bounded by its counter, and no user's charged entries
exceed the limit plus one. -/
def QuotaInv (m : Nat) (st : ConnQueueState) : Prop :=
  (st.msgUsersMax = 0 → ∀ u, chargedCount u st = 0) ∧
  (∀ u, chargedCount u st ≤ st.msgUsers u) ∧
  (∀ u, chargedCount u st ≤ m + 1)

/-- Claim C10: when kdbus_ep_new fails, kdbus_bus_new propagates the error and
never returns a bus whose ep field holds an error pointer.  The code is
wrong: the guard `IS_ERR(b->ep) < 0` compares the 0/1 result of IS_ERR with
zero and is therefore never taken, so an ep-creation failure (here
ERR_PTR(-ENOMEM) = -12) is ignored and the function continues with an error
pointer stored in b->ep. -/
theorem C10_ep_error_not_propagated :
    kdbus_bus_new_after_ep (.error (-12)) = .ok true ∧
    ∀ ep : Except Int Unit, kdbus_bus_new_ep_guard ep = false := by
  refine ⟨by rfl, ?_⟩
  intro ep
  cases ep <;> rfl

/-- Claim C7: disconnect with the ensure-queue-empty option fails with
ResourceBusy on a non-empty queue, leaving the connection active; after the
queue is drained it succeeds; disconnecting an already-disconnected
connection returns AlreadyFinished; and disconnect never fails with any other
error. -/
theorem C7_disconnect (c : ConnDisc) :
    (c.active = true → c.queue ≠ [] →
      kdbus_conn_disconnect c true = (c, some .EBUSY) ∧
      (kdbus_conn_disconnect c true).1.active = true) ∧
    (c.active = true →
      kdbus_conn_disconnect (drainQueue c) true =
        ({ active := false, queue := [] }, none)) ∧
    (c.active = false →
      ∀ ensure : Bool, kdbus_conn_disconnect c ensure = (c, some .EALREADY)) ∧
    (∀ ensure : Bool,
      (kdbus_conn_disconnect c ensure).2 = none ∨
      (kdbus_conn_disconnect c ensure).2 = some .EALREADY ∨
      (kdbus_conn_disconnect c ensure).2 = some .EBUSY) := by
  refine ⟨?_, ?_, ?_, ?_⟩
  · intro hact hq
    have hne : ¬ c.queue.isEmpty := by
      simpa [List.isEmpty_iff] using hq
    constructor
    · simp [kdbus_conn_disconnect, hact, hne]
    · simp [kdbus_conn_disconnect, hact, hne]
  · intro hact
    simp [kdbus_conn_disconnect, drainQueue, hact]
  · intro hact ensure
    simp [kdbus_conn_disconnect, hact]
  · intro ensure
    by_cases hact : c.active
    · by_cases hq : c.queue.isEmpty
      · by_cases hens : ensure
        · simp [kdbus_conn_disconnect, hact, hq, hens]
        · simp [kdbus_conn_disconnect, hact, hens]
      · by_cases hens : ensure
        · simp [kdbus_conn_disconnect, hact, hq, hens]
        · simp [kdbus_conn_disconnect, hact, hens]
    · simp [kdbus_conn_disconnect, hact]

/-- Witness for C7 at a concrete connection: active with one queued message,
BYEBYE with the queue-empty requirement fails with -EBUSY and the connection
stays active. -/
theorem C7_disconnect_witness :
    kdbus_conn_disconnect ⟨true, [5]⟩ true = (⟨true, [5]⟩, some .EBUSY) :=
  ((C7_disconnect ⟨true, [5]⟩).1 (by rfl) (by decide)).1

/-- Claim C8: a non-zero input offset is rejected with InvalidArgument and
the queue is unchanged; PEEK on a non-empty queue returns the pool offset of
the next entry's slice, leaves the entry queued and installs no file
descriptors, so a subsequent (default-mode) receive obtains the same
entry. -/
theorem C8_msg_recv (queue : List RecvEntry) (cmd : RecvCmd) (e : RecvEntry)
    (rest : List RecvEntry) :
    (0 < cmd.offset →
      kdbus_cmd_msg_recv queue cmd = (queue, .error .EINVAL)) ∧
    (queue = e :: rest →
      kdbus_cmd_msg_recv queue ⟨0, false, true, false, 0⟩ =
        (queue, .ok ⟨some e.slOffset, false, none⟩) ∧
      kdbus_cmd_msg_recv queue ⟨0, false, false, false, 0⟩ =
        (rest, .ok ⟨some e.slOffset, true, some e⟩)) := by
  constructor
  · intro hoff
    simp [kdbus_cmd_msg_recv, hoff]
  · rintro rfl
    constructor
    · simp [kdbus_cmd_msg_recv, kdbus_queue_entry_peek]
    · simp [kdbus_cmd_msg_recv, kdbus_queue_entry_peek, List.erase_cons]

/-- Witness for C8 at a concrete queue: one entry at pool offset 96,
priority 0; a PEEK returns offset 96 and leaves the queue as it was, and the
following ordinary receive consumes that same entry. -/
theorem C8_msg_recv_witness :
    kdbus_cmd_msg_recv (⟨96, 0⟩ :: []) ⟨0, false, true, false, 0⟩ =
      ((⟨96, 0⟩ : RecvEntry) :: [], .ok ⟨some 96, false, none⟩) ∧
    kdbus_cmd_msg_recv (⟨96, 0⟩ :: []) ⟨0, false, false, false, 0⟩ =
      ([], .ok ⟨some 96, true, some ⟨96, 0⟩⟩) :=
  (C8_msg_recv (⟨96, 0⟩ :: []) ⟨1, false, false, false, 0⟩ ⟨96, 0⟩ []).2 rfl

/-- Claim C5: when both a destination name and a numeric destination id are
supplied, the send succeeds only if the connection currently owning the name
has exactly that id, and otherwise fails with ChangedIdentity (-EREMCHG)
before any enqueue (the resolution never yields a destination, so nothing is
enqueued). -/
theorem C5_name_id_mismatch (ne : NameEntry) (dstId ow : Nat)
    (noAutoStart : Bool) (isAct : Nat → Bool)
    (hown : ne.conn = some ow) (hid : dstId ≠ KDBUS_DST_ID_NAME) :
    (dstId ≠ ow →
      resolveNameDst (some ne) dstId noAutoStart isAct = .err .EREMCHG) ∧
    (∀ d : Nat,
      resolveNameDst (some ne) dstId noAutoStart isAct = .dest d →
      dstId = ow) := by
  constructor
  · intro hne
    simp [resolveNameDst, hid, hown, hne]
  · intro d hd
    by_cases h : dstId = ow
    · exact h
    · simp [resolveNameDst, hid, hown, h] at hd

/-- Witness for C5 at a concrete input: the name is owned by connection 4,
the message addresses the name plus id 9, and resolution fails with
-EREMCHG. -/
theorem C5_name_id_mismatch_witness :
    resolveNameDst (some ⟨some 4, none, 11⟩) 9 false (fun _ => false) =
      .err .EREMCHG :=
  (C5_name_id_mismatch ⟨some 4, none, 11⟩ 9 4 false (fun _ => false)
    rfl (by decide)).1 (by decide)

/-- Claim C9: the send path evaluates the owner-id comparison only when the
looked-up name entry has a non-null owner connection, so addressing by
name-plus-id a name held only by an activator never dereferences a null
owner.  The code is wrong: `msg->dst_id != name_entry->conn->id`
(src/connection.c:788) runs before the null-owner test at line 793, so a
name entry with conn == NULL and a live activator crashes on a NULL
dereference whenever a numeric dst_id accompanies the name. -/
theorem C9_null_owner_deref :
    resolveNameDst (some ⟨none, some 7, 5⟩) 9 false (fun _ => false) =
      .nullDeref ∧
    resolveNameDst (some ⟨none, some 7, 5⟩) KDBUS_DST_ID_NAME false
      (fun _ => false) = .dest 7 := by
  exact ⟨by rfl, by rfl⟩

/-- Unlinking the first match removes exactly one match from the count. -/
theorem removeFirst_countP (p : Reply → Bool) (l : List Reply) :
    (removeFirst p l).countP p = l.countP p - 1 := by
  induction l with
  | nil => simp [removeFirst]
  | cons r rs ih =>
    by_cases h : p r = true
    · simp [removeFirst, h, List.countP_cons]
    · simp [removeFirst, h, List.countP_cons, ih]

/-- After unlinking the only match, nothing matches any more. -/
theorem removeFirst_none (p : Reply → Bool) (l : List Reply)
    (h : l.countP p ≤ 1) : (removeFirst p l).find? p = none := by
  have hc := removeFirst_countP p l
  refine List.find?_eq_none.mpr ?_
  have hz : (removeFirst p l).countP p = 0 := by omega
  have := List.countP_eq_zero.mp hz
  intro x hx
  exact this x hx

/-- Claim C3 counterexample: after a reply consumed the tracker (call with
cookie 7 awaited by connection 1), a second send with the same cookie_reply
from the same replier to the same caller, both owned by the same user
(fsuid 100 = uid 100) on the default endpoint, passes the access check as an
ordinary message (.ok with no consumed tracker) instead of being rejected:
the code falls back to the policy check, and the implicit same-user rule
admits the message. -/
theorem C3_second_reply_not_rejected :
    kdbus_conn_check_access true 7 (⟨1, 7, false⟩ :: []) 1 1 false
      (.ok ()) (.ok ()) false ⟨100, 100⟩ ⟨100, 100⟩ = .ok ⟨[], none⟩ ∧
    kdbus_conn_check_access true 7 [] 1 1 false
      (.ok ()) (.ok ()) false ⟨100, 100⟩ ⟨100, 100⟩ = .ok ⟨[], none⟩ :=
  ⟨rfl, rfl⟩

/-- Claim C3 (amended): a reply whose cookie_reply matches the outstanding
call's cookie is delivered exactly once — the access check consumes (removes)
the reply tracker on delivery, and a second send with the same cookie_reply
from the same replier to the same caller no longer finds a tracker and is not
delivered as a reply: it is subjected to the ordinary policy check instead
(so it is rejected exactly when policy denies it, and never consumes a
tracker or wakes a waiter). -/
theorem C3_reply_consumed_once (rs : List Reply) (cnt dstId ck : Nat)
    (r : Reply) (hasPolicy : Bool) (customV busV : Except KErr Unit)
    (priv : Bool) (sc dc : Cred)
    (hck : 0 < ck) (hcnt : cnt ≠ 0)
    (hfind : rs.find? (replyMatches dstId ck) = some r)
    (huniq : rs.countP (replyMatches dstId ck) ≤ 1) :
    kdbus_conn_check_access true ck rs cnt dstId hasPolicy customV busV
        priv sc dc =
      .ok ⟨removeFirst (replyMatches dstId ck) rs,
           if r.sync then some r else none⟩ ∧
    kdbus_conn_find_reply (removeFirst (replyMatches dstId ck) rs) cnt dstId
        ck = none ∧
    kdbus_conn_check_access true ck (removeFirst (replyMatches dstId ck) rs)
        cnt dstId hasPolicy customV busV priv sc dc =
      (match kdbus_ep_policy_check_talk_access hasPolicy customV priv sc dc
          busV with
       | .error e => .error e
       | .ok _ => .ok ⟨removeFirst (replyMatches dstId ck) rs, none⟩) := by
  have hrm : kdbus_conn_find_reply (removeFirst (replyMatches dstId ck) rs)
      cnt dstId ck = none := by
    simp [kdbus_conn_find_reply, hcnt, removeFirst_none _ _ huniq]
  refine ⟨?_, hrm, ?_⟩
  · simp [kdbus_conn_check_access, kdbus_conn_find_reply, hcnt, hck, hfind]
  · cases hpol : kdbus_ep_policy_check_talk_access hasPolicy customV priv
        sc dc busV <;>
      simp [kdbus_conn_check_access, hck, hrm, hpol]

/-- Witness for C3 (amended) at a concrete state: connection 2's reply list
holds the tracker of a sync call by connection 1 with cookie 7; the reply
consumes it and is handed to the waker, and the second identical send passes
through to the policy verdict. -/
theorem C3_reply_consumed_once_witness :
    kdbus_conn_check_access true 7 (⟨1, 7, true⟩ :: []) 1 1 false
      (.ok ()) (.ok ()) false ⟨100, 100⟩ ⟨100, 100⟩ =
      .ok ⟨[], some ⟨1, 7, true⟩⟩ := by
  have h := (C3_reply_consumed_once (⟨1, 7, true⟩ :: []) 1 1 7 ⟨1, 7, true⟩
    false (.ok ()) (.ok ()) false ⟨100, 100⟩ ⟨100, 100⟩
    (by decide) (by decide) (by rfl) (by decide)).1
  simpa [removeFirst, replyMatches] using h

/-- With every other connection either skipped or free of matching trackers,
the cancel scan finds nothing and reports -ENOENT. -/
theorem cancel_no_match (connId cookie cnt : Nat)
    (conns : List (Nat × List Reply)) (hcnt : cnt ≠ 0)
    (hall : ∀ c ∈ conns, c.1 = connId ∨
      c.2.countP (replyMatches connId cookie) = 0) :
    kdbus_cmd_msg_cancel connId cookie cnt conns = .error .ENOENT := by
  have hnone : ∀ c ∈ conns, (cancelConn connId cookie cnt c).2 = none := by
    intro c hc
    rcases hall c hc with h | h
    · simp [cancelConn, h]
    · by_cases hid : c.1 = connId
      · simp [cancelConn, hid]
      · have hf : c.2.find? (replyMatches connId cookie) = none :=
          List.find?_eq_none.mpr (List.countP_eq_zero.mp h)
        simp [cancelConn, hid, kdbus_conn_find_reply, hcnt, hf]
  have hempty :
      (conns.map (cancelConn connId cookie cnt)).filterMap (·.2) = [] := by
    rw [List.filterMap_map]
    exact List.filterMap_eq_nil_iff.mpr hnone
  simp [kdbus_cmd_msg_cancel, hcnt, hempty]

/-- Claim C4 counterexample: connection 2 holds two sync trackers for
connection 1's cookie 7 — a reachable state, since two EXPECT_REPLY sends
with the same cookie each create a live tracker (the duplicate check at
src/connection.c:836-845 re-adopts only *interrupted* trackers).  The first
cancel wakes only the first match: the second matching tracker is still
queued afterwards, so not every matching entry was woken, and a second
invocation with the same cookie finds the survivor and returns success
instead of NotFound. -/
theorem C4_cancel_first_match_only :
    kdbus_cmd_msg_cancel 1 7 1
      ((1, []) :: (2, ⟨1, 7, true⟩ :: ⟨1, 7, true⟩ :: []) :: []) =
      .ok ((1, []) :: (2, ⟨1, 7, true⟩ :: []) :: [],
           (⟨1, 7, true⟩, .ECANCELED) :: []) ∧
    kdbus_cmd_msg_cancel 1 7 1 ((1, []) :: (2, ⟨1, 7, true⟩ :: []) :: []) =
      .ok ((1, []) :: (2, []) :: [], (⟨1, 7, true⟩, .ECANCELED) :: []) :=
  ⟨rfl, rfl⟩

/-- Claim C4 (amended): cmd_msg_cancel scans the reply lists of every other
connection on the bus and wakes, in each such connection, the *first* entry
whose reply_dst is the cancelling connection and whose cookie matches —
synchronously, with Canceled — returning success if at least one entry was
found; when no matching entry exists it returns NotFound.  Hence a second
invocation with the same cookie returns NotFound provided every connection
held at most one matching tracker (a duplicate matching tracker survives the
first cancel and makes a second invocation succeed again).  Stated for
states whose matching trackers are synchronous: an asynchronous match would
be passed to kdbus_conn_reply_sync, whose BUG_ON(!reply->sync)
(src/connection.c:149) crashes the kernel instead of waking anything. -/
theorem C4_cancel_amended (connId cookie cnt : Nat)
    (conns : List (Nat × List Reply)) (hcnt : cnt ≠ 0)
    (hsync : ∀ c ∈ conns, ∀ r ∈ c.2,
      replyMatches connId cookie r = true → r.sync = true) :
    ((∀ c ∈ conns, c.1 = connId ∨
        c.2.countP (replyMatches connId cookie) = 0) →
      kdbus_cmd_msg_cancel connId cookie cnt conns = .error .ENOENT) ∧
    ((∃ c ∈ conns, c.1 ≠ connId ∧
        0 < c.2.countP (replyMatches connId cookie)) →
      ∃ rest woken,
        kdbus_cmd_msg_cancel connId cookie cnt conns = .ok (rest, woken) ∧
        woken ≠ [] ∧
        (∀ rw ∈ woken, replyMatches connId cookie rw.1 = true ∧
          rw.1.sync = true ∧ rw.2 = KErr.ECANCELED) ∧
        rest = conns.map (fun c => (cancelConn connId cookie cnt c).1) ∧
        (∀ c ∈ conns, c.1 ≠ connId →
          (cancelConn connId cookie cnt c).1.2.countP
              (replyMatches connId cookie) =
            c.2.countP (replyMatches connId cookie) -
              min 1 (c.2.countP (replyMatches connId cookie))) ∧
        ((∀ c ∈ conns, c.2.countP (replyMatches connId cookie) ≤ 1) →
          kdbus_cmd_msg_cancel connId cookie cnt rest =
            .error .ENOENT)) := by
  constructor
  · exact cancel_no_match connId cookie cnt conns hcnt
  · rintro ⟨c0, hc0, hc0ne, hc0pos⟩
    obtain ⟨r0, hr0mem, hr0p⟩ := List.countP_pos_iff.mp hc0pos
    have hfs : c0.2.find? (replyMatches connId cookie) ≠ none := by
      intro hnone
      exact absurd hr0p (by simpa using List.find?_eq_none.mp hnone r0 hr0mem)
    obtain ⟨rf, hrf⟩ := Option.ne_none_iff_exists'.mp hfs
    have hcc0 : cancelConn connId cookie cnt c0 =
        ((c0.1, removeFirst (replyMatches connId cookie) c0.2),
         some (rf, .ECANCELED)) := by
      simp [cancelConn, hc0ne, kdbus_conn_find_reply, hcnt, hrf]
    have hmem : (rf, KErr.ECANCELED) ∈
        (conns.map (cancelConn connId cookie cnt)).filterMap (·.2) := by
      rw [List.filterMap_map]
      exact List.mem_filterMap.mpr ⟨c0, hc0, by simp [Function.comp, hcc0]⟩
    have hnil :
        (conns.map (cancelConn connId cookie cnt)).filterMap (·.2) ≠ [] :=
      List.ne_nil_of_mem hmem
    have hemp :
        ((conns.map (cancelConn connId cookie cnt)).filterMap
          (·.2)).isEmpty = false := by
      simpa [List.isEmpty_iff] using hnil
    refine ⟨(conns.map (cancelConn connId cookie cnt)).map (·.1),
            (conns.map (cancelConn connId cookie cnt)).filterMap (·.2),
            ?_, hnil, ?_, ?_, ?_, ?_⟩
    · unfold kdbus_cmd_msg_cancel
      rw [if_neg hcnt, if_neg (by rw [hemp]; simp)]
    · intro rw_ hrw
      rw [List.filterMap_map] at hrw
      obtain ⟨c, hcmem, hceq⟩ := List.mem_filterMap.mp hrw
      by_cases hid : c.1 = connId
      · simp [Function.comp, cancelConn, hid] at hceq
      · cases hf : c.2.find? (replyMatches connId cookie) with
        | none =>
          simp [Function.comp, cancelConn, hid, kdbus_conn_find_reply,
            hcnt, hf] at hceq
        | some r =>
          have hrw2 : rw_ = (r, KErr.ECANCELED) := by
            simp [Function.comp, cancelConn, hid, kdbus_conn_find_reply,
              hcnt, hf] at hceq
            exact hceq.symm
          subst hrw2
          have hpr : replyMatches connId cookie r = true := List.find?_some hf
          exact ⟨hpr, hsync c hcmem r (List.mem_of_find?_eq_some hf) hpr, rfl⟩
    · simp [List.map_map, Function.comp]
    · intro c hcmem hcne
      cases hf : c.2.find? (replyMatches connId cookie) with
      | none =>
        have h0 : c.2.countP (replyMatches connId cookie) = 0 :=
          List.countP_eq_zero.mpr (List.find?_eq_none.mp hf)
        simp [cancelConn, hcne, kdbus_conn_find_reply, hcnt, hf, h0]
      | some r =>
        have hpos : 0 < c.2.countP (replyMatches connId cookie) :=
          List.countP_pos_iff.mpr
            ⟨r, List.mem_of_find?_eq_some hf, List.find?_some hf⟩
        have hrm : (cancelConn connId cookie cnt c).1.2 =
            removeFirst (replyMatches connId cookie) c.2 := by
          simp [cancelConn, hcne, kdbus_conn_find_reply, hcnt, hf]
        rw [hrm, removeFirst_countP]
        omega
    · intro huniq
      apply cancel_no_match connId cookie cnt _ hcnt
      intro c' hc'
      obtain ⟨res, hres, hreseq⟩ := List.mem_map.mp hc'
      obtain ⟨c, hcmem, hceq⟩ := List.mem_map.mp hres
      by_cases hid : c.1 = connId
      · left
        rw [← hreseq, ← hceq]
        simp [cancelConn, hid]
      · right
        cases hf : c.2.find? (replyMatches connId cookie) with
        | none =>
          have hz : c.2.countP (replyMatches connId cookie) = 0 :=
            List.countP_eq_zero.mpr (List.find?_eq_none.mp hf)
          rw [← hreseq, ← hceq]
          simp [cancelConn, hid, kdbus_conn_find_reply, hcnt, hf, hz]
        | some r =>
          have hc1 : c'.2 = removeFirst (replyMatches connId cookie) c.2 := by
            rw [← hreseq, ← hceq]
            simp [cancelConn, hid, kdbus_conn_find_reply, hcnt, hf]
          rw [hc1, removeFirst_countP]
          have := huniq c hcmem
          omega

/-- Witness for C4 (amended) at a concrete bus: connection 1 cancels cookie
7 while connection 2 holds the single matching sync tracker; the call
succeeds and wakes it with Canceled, and — each connection having held at
most one match — the second invocation returns NotFound. -/
theorem C4_cancel_amended_witness :
    kdbus_cmd_msg_cancel 1 7 1 ((1, []) :: (2, ⟨1, 7, true⟩ :: []) :: []) =
      .ok ((1, []) :: (2, []) :: [], (⟨1, 7, true⟩, .ECANCELED) :: []) ∧
    kdbus_cmd_msg_cancel 1 7 1 ((1, []) :: (2, []) :: []) =
      .error .ENOENT := by
  have h := C4_cancel_amended 1 7 1 ((1, []) :: (2, ⟨1, 7, true⟩ :: []) :: [])
    (by decide) (by decide)
  obtain ⟨rest, woken, h1, -, -, hrest, -, h6⟩ :=
    h.2 ⟨(2, ⟨1, 7, true⟩ :: []), by simp, by decide, by decide⟩
  have hval : kdbus_cmd_msg_cancel 1 7 1
      ((1, []) :: (2, ⟨1, 7, true⟩ :: []) :: []) =
      .ok ((1, []) :: (2, []) :: [],
           (⟨1, 7, true⟩, KErr.ECANCELED) :: []) := by rfl
  have hpair := h1.symm.trans hval
  simp only [Except.ok.injEq, Prod.mk.injEq] at hpair
  refine ⟨hval, ?_⟩
  have h7 := h6 (by decide)
  rw [hpair.1] at h7
  exact h7

/- ------------------------------------------------------------------ -/
/- Message sequence numbers                                           -/
/- (src/connection.c, kdbus_conn_kmsg_send, 744-746)                  -/
/- ------------------------------------------------------------------ -/

/-- A step function preserving a predicate preserves it along a fold. -/
theorem foldl_preserve {σ α : Type} (P : σ → Prop) (f : σ → α → σ)
    (hstep : ∀ s a, P s → P (f s a)) :
    ∀ (l : List α) (s : σ), P s → P (l.foldl f s)
  | [], _, h => h
  | a :: l, s, h => foldl_preserve P f hstep l (f s a) (hstep s a h)

/-- Claim C6 counterexample: two buses (0 and 1) in one domain, one send on
each.  The code assigns bus 1's first message sequence number 2 — the
counter is the domain's and the incremented value is returned — whereas the
claim's mechanism (fetch-and-increment of the bus's own counter) would
assign it 0.  The sequence numbers are not produced by a per-bus
fetch-and-increment. -/
theorem C6_seq_not_per_bus :
    (runSends (0 :: 1 :: []) initSeqSt).assigned = (0, 1) :: (1, 2) :: [] ∧
    (specRunSends (0 :: 1 :: []) initSpecSeqSt).assigned =
      (0, 0) :: (1, 0) :: [] :=
  ⟨rfl, rfl⟩

/-- One send preserves the sequence invariant. -/
theorem kmsgAssignSeq_inv (b : Nat) (st : SeqSt) (h : SeqInv st) :
    SeqInv (kmsgAssignSeq b st) := by
  obtain ⟨hle, hpw⟩ := h
  constructor
  · intro q hq
    simp only [kmsgAssignSeq] at hq ⊢
    rcases List.mem_append.mp hq with h | h
    · exact le_trans (hle q h) (Nat.le_succ _)
    · simp only [List.mem_singleton] at h
      subst h
      exact le_refl _
  · simp only [kmsgAssignSeq]
    rw [List.pairwise_append]
    refine ⟨hpw, List.pairwise_singleton _ _, ?_⟩
    intro a ha b' hb'
    simp only [List.mem_singleton] at hb'
    subst hb'
    exact Nat.lt_succ_of_le (hle a ha)

/-- Claim C6 (amended): every send assigns the message sequence number by an
atomic increment-and-fetch of the bus's *domain's* message sequence counter
before dispatch, and across all successful sends in the domain — in
particular across all sends on any one bus — the assigned numbers are
strictly increasing: later sends receive larger numbers and no two messages
receive the same number. -/
theorem C6_seq_strictly_increasing (buses : List Nat) :
    (runSends buses initSeqSt).assigned.Pairwise (fun a b => a.2 < b.2) ∧
    (∀ busId : Nat,
      ((runSends buses initSeqSt).assigned.filter
        (fun q => q.1 == busId)).Pairwise (fun a b => a.2 < b.2)) ∧
    ((runSends buses initSeqSt).assigned.map (·.2)).Nodup := by
  have h := foldl_preserve SeqInv (fun s b => kmsgAssignSeq b s)
    (fun s b hs => kmsgAssignSeq_inv b s hs) buses initSeqSt
    ⟨by simp [initSeqSt], by simp [initSeqSt]⟩
  refine ⟨h.2, fun busId => h.2.filter _, ?_⟩
  have hne : ((runSends buses initSeqSt).assigned.map (·.2)).Pairwise
      (· ≠ ·) := by
    rw [List.pairwise_map]
    exact h.2.imp Nat.ne_of_lt
  exact hne

/-- Appending one entry adds its own contribution to a count. -/
theorem countP_append_single {α : Type} (p : α → Bool) (l : List α) (e : α) :
    (l ++ [e]).countP p = l.countP p + (if p e then 1 else 0) := by
  simp [List.countP_append, List.countP_cons]

/-- The growth step never touches the queued entries. -/
theorem quotaSeed_entries (user : Nat) (st : ConnQueueState) :
    (quotaSeed user st).entries = st.entries := by
  unfold quotaSeed
  split <;> rfl

/-- After the growth step the array bound is positive. -/
theorem quotaSeed_max_ne (user : Nat) (st : ConnQueueState) :
    (quotaSeed user st).msgUsersMax ≠ 0 := by
  unfold quotaSeed
  split
  · simp
  · next h => omega

/-- The growth step leaves every other user's counter alone. -/
theorem quotaSeed_other (user : Nat) (st : ConnQueueState) (v : Nat)
    (hv : v ≠ user) : (quotaSeed user st).msgUsers v = st.msgUsers v := by
  unfold quotaSeed
  split
  · by_cases h0 : st.msgUsersMax = 0 <;> simp [h0, hv]
  · rfl

/-- The triggering user's counter is reseeded only on the very first
allocation. -/
theorem quotaSeed_self (user : Nat) (st : ConnQueueState) :
    (quotaSeed user st).msgUsers user = st.msgUsers user ∨
      st.msgUsersMax = 0 := by
  unfold quotaSeed
  split
  · by_cases h0 : st.msgUsersMax = 0
    · right
      exact h0
    · left
      simp [h0]
  · left
    rfl

/-- Inversion of a successful quota call: either nothing was accounted and
the state is untouched, or the sender was charged; then the pre-debit
counter was within the limit, the growth step only possibly rewrote the
charged user's own slot (and only when the array had never been allocated),
and the result is the grown state with the charged user's counter
debited. -/
theorem quota_ok_cases (m : Nat) (priv : Bool) (src : Option Nat)
    (st st1 : ConnQueueState) (charged : Option Nat)
    (hq : kdbus_conn_queue_user_quota m priv src st = .ok (st1, charged)) :
    (st1 = st ∧ charged = none) ∨
    (∃ u, charged = some u ∧
      (quotaSeed u st).msgUsers u ≤ m ∧
      st1 = { quotaSeed u st with
              msgUsers := fun v =>
                if v = u then (quotaSeed u st).msgUsers v + 1
                else (quotaSeed u st).msgUsers v }) := by
  cases src with
  | none =>
    simp only [kdbus_conn_queue_user_quota, Except.ok.injEq,
      Prod.mk.injEq] at hq
    exact Or.inl ⟨hq.1.symm, hq.2.symm⟩
  | some user =>
    simp only [kdbus_conn_queue_user_quota] at hq
    by_cases hpriv : priv = true
    · rw [if_pos hpriv] at hq
      simp only [Except.ok.injEq, Prod.mk.injEq] at hq
      exact Or.inl ⟨hq.1.symm, hq.2.symm⟩
    · rw [if_neg hpriv] at hq
      by_cases hcnt : st.msgCount < m
      · rw [if_pos hcnt] at hq
        simp only [Except.ok.injEq, Prod.mk.injEq] at hq
        exact Or.inl ⟨hq.1.symm, hq.2.symm⟩
      · rw [if_neg hcnt] at hq
        by_cases hchk : m < (quotaSeed user st).msgUsers user
        · rw [if_pos hchk] at hq
          exact absurd hq (by simp)
        · rw [if_neg hchk] at hq
          simp only [Except.ok.injEq, Prod.mk.injEq] at hq
          exact Or.inr ⟨user, hq.2.symm, Nat.le_of_not_lt hchk, hq.1.symm⟩

/-- One enqueue attempt preserves the quota invariant. -/
theorem insertStep_inv (maxMsgs m : Nat) (st : ConnQueueState)
    (inp : InsertInput) (h : QuotaInv m st) :
    QuotaInv m (insertStep maxMsgs m st inp) := by
  obtain ⟨h1, h2, h3⟩ := h
  unfold insertStep
  cases hres : kdbus_conn_entry_insert maxMsgs m inp st with
  | error e => exact ⟨h1, h2, h3⟩
  | ok st' =>
    unfold kdbus_conn_entry_insert at hres
    split at hres
    · exact absurd hres (by simp)
    split at hres
    · exact absurd hres (by simp)
    split at hres
    · exact absurd hres (by simp)
    cases hq : kdbus_conn_queue_user_quota m inp.privileged inp.srcUser st with
    | error e =>
      rw [hq] at hres
      exact absurd hres (by simp)
    | ok pr =>
      obtain ⟨st1, charged⟩ := pr
      rw [hq] at hres
      simp only [Except.ok.injEq] at hres
      subst hres
      rcases quota_ok_cases m inp.privileged inp.srcUser st st1 charged hq with
        ⟨rfl, rfl⟩ | ⟨u, rfl, hle, rfl⟩
      · refine ⟨fun hm u => ?_, fun u => ?_, fun u => ?_⟩
        · have h0 := h1 hm u
          simpa [chargedCount, countP_append_single] using h0
        · have h0 := h2 u
          simpa [chargedCount, countP_append_single] using h0
        · have h0 := h3 u
          simpa [chargedCount, countP_append_single] using h0
      · have hchu : chargedCount u
            ({ quotaSeed u st with
               msgUsers := fun w =>
                 if w = u then (quotaSeed u st).msgUsers w + 1
                 else (quotaSeed u st).msgUsers w,
               msgCount := (quotaSeed u st).msgCount + 1,
               entries := (quotaSeed u st).entries ++ [⟨inp.srcUser, some u⟩]
             } : ConnQueueState) = chargedCount u st + 1 := by
          simp [chargedCount, quotaSeed_entries, countP_append_single]
        have hchv : ∀ v, v ≠ u → chargedCount v
            ({ quotaSeed u st with
               msgUsers := fun w =>
                 if w = u then (quotaSeed u st).msgUsers w + 1
                 else (quotaSeed u st).msgUsers w,
               msgCount := (quotaSeed u st).msgCount + 1,
               entries := (quotaSeed u st).entries ++ [⟨inp.srcUser, some u⟩]
             } : ConnQueueState) = chargedCount v st := by
          intro v hv
          have hv' : ¬ u = v := fun hh => hv hh.symm
          simp [chargedCount, quotaSeed_entries, countP_append_single, hv']
        have hbase : chargedCount u st ≤ (quotaSeed u st).msgUsers u := by
          rcases quotaSeed_self u st with heq | h0
          · rw [heq]
            exact h2 u
          · rw [h1 h0 u]
            exact Nat.zero_le _
        refine ⟨fun hm v => ?_, fun v => ?_, fun v => ?_⟩
        · exact absurd hm (quotaSeed_max_ne u st)
        · by_cases hv : v = u
          · subst hv
            rw [hchu]
            simpa using Nat.add_le_add_right hbase 1
          · rw [hchv v hv]
            have hq2 := quotaSeed_other u st v hv
            simpa [hv, hq2] using h2 v
        · by_cases hv : v = u
          · subst hv
            rw [hchu]
            have h9 : chargedCount v st ≤ m := le_trans hbase hle
            omega
          · rw [hchv v hv]
            exact h3 v

/-- Claim C1 counterexample: with MAX_MSGS_PER_USER = 2 (and MAX_MSGS = 16),
a single unprivileged user sends three messages and all three are accepted:
the receive queue then holds 3 > MAX_MSGS_PER_USER messages from that user
and its per-user counter stands at 3; only the fourth enqueue fails with
NoBufferSpace.  The quota admits one message past the bound because it
rejects only counters already strictly above the limit. -/
theorem C1_quota_off_by_one :
    sentCount 0 (runInserts 16 2
      (⟨some 0, false, 0, true, true⟩ :: ⟨some 0, false, 0, true, true⟩ ::
       ⟨some 0, false, 0, true, true⟩ :: []) initQueueState) = 3 ∧
    (runInserts 16 2
      (⟨some 0, false, 0, true, true⟩ :: ⟨some 0, false, 0, true, true⟩ ::
       ⟨some 0, false, 0, true, true⟩ :: []) initQueueState).msgUsers 0 = 3 ∧
    kdbus_conn_entry_insert 16 2 ⟨some 0, false, 0, true, true⟩
      (runInserts 16 2
        (⟨some 0, false, 0, true, true⟩ :: ⟨some 0, false, 0, true, true⟩ ::
         ⟨some 0, false, 0, true, true⟩ :: []) initQueueState) =
      .error .ENOBUFS := by
  refine ⟨by rfl, by rfl, by rfl⟩

/-- Claim C1 (amended): for every connection and every unprivileged sending
user u, the number of entries in the receive queue charged to u never
exceeds MAX_MSGS_PER_USER + 1 (the quota admits exactly one message whose
debit takes the counter past the bound); once the queue has grown to
MAX_MSGS_PER_USER entries, a further enqueue from u fails with NoBufferSpace
whenever u's counter already exceeds MAX_MSGS_PER_USER; an enqueue also
fails with NoBufferSpace whenever the queue already holds more than the
aggregate MAX_MSGS entries; and privileged senders bypass both quotas. -/
theorem C1_quota_amended (maxMsgs m u : Nat) (steps : List InsertInput) :
    chargedCount u (runInserts maxMsgs m steps initQueueState) ≤ m + 1 ∧
    (∀ st : ConnQueueState, ¬ st.msgCount < m → u < st.msgUsersMax →
      m < st.msgUsers u →
      kdbus_conn_queue_user_quota m false (some u) st = .error .ENOBUFS) ∧
    (∀ (inp : InsertInput) (st : ConnQueueState), inp.privileged = false →
      maxMsgs < st.msgCount →
      kdbus_conn_entry_insert maxMsgs m inp st = .error .ENOBUFS) ∧
    (∀ (inp : InsertInput) (st : ConnQueueState), inp.privileged = true →
      kdbus_conn_entry_insert maxMsgs m inp st ≠ .error .ENOBUFS) := by
  refine ⟨?_, ?_, ?_, ?_⟩
  · have h := foldl_preserve (QuotaInv m) (insertStep maxMsgs m)
      (fun s i hs => insertStep_inv maxMsgs m s i hs) steps initQueueState
      ⟨fun _ u' => rfl, fun u' => Nat.zero_le _, fun u' => Nat.zero_le _⟩
    exact h.2.2 u
  · intro st hcnt hcov hgt
    have hseed : quotaSeed u st = st := by
      unfold quotaSeed
      rw [if_neg (by omega)]
    simp only [kdbus_conn_queue_user_quota]
    rw [if_neg (by simp), if_neg hcnt, if_pos (by rw [hseed]; exact hgt)]
  · intro inp st hpriv hcnt
    unfold kdbus_conn_entry_insert
    rw [if_pos ⟨by simp [hpriv], hcnt⟩]
  · intro inp st hpriv
    unfold kdbus_conn_entry_insert
    rw [if_neg (by simp [hpriv])]
    by_cases hact : ¬ inp.active = true
    · rw [if_pos hact]
      simp
    · rw [if_neg hact]
      by_cases hfd : ¬ inp.acceptFd = true ∧ 0 < inp.fdsCount
      · rw [if_pos hfd]
        simp
      · rw [if_neg hfd]
        cases hsrc : inp.srcUser with
        | none => simp [kdbus_conn_queue_user_quota, hsrc]
        | some u' => simp [kdbus_conn_queue_user_quota, hsrc, hpriv]

/-- Witness for C1 (amended) at a concrete state: a queue already holding
17 > MAX_MSGS = 16 entries rejects an unprivileged enqueue with
NoBufferSpace. -/
theorem C1_quota_amended_witness :
    kdbus_conn_entry_insert 16 2 ⟨some 0, false, 0, true, true⟩
      ⟨17, fun _ => 0, 0, []⟩ = .error .ENOBUFS :=
  (C1_quota_amended 16 2 0 []).2.2.1 ⟨some 0, false, 0, true, true⟩
    ⟨17, fun _ => 0, 0, []⟩ rfl (by decide)

/-- Claim C2: kdbus_bus_new accepts the requested bus name only if it begins
with the full "uid-" prefix, and rejects every other name with
InvalidArgument.  The code is wrong: the length argument passed to strncmp is
the boolean `strlen(prefix) != 0`, i.e. 1, so only the first byte of the name
is compared with the first digit of the uid.  At uid 10 the name "1x" lacks
the prefix "10-" yet is accepted. -/
theorem C2_prefix_check_code_bug :
    kdbus_bus_new_check_name 10 ('1' :: 'x' :: []) = .ok () ∧
    specUidDashCheck 10 ('1' :: 'x' :: []) = false ∧
    kdbus_bus_new_check_name 10 ('2' :: '0' :: '-' :: []) = .error .EINVAL := by
  refine ⟨by rfl, by decide, by rfl⟩

end Kdbus
